import Mathlib

/-!
# Verification of the csc_booking_bot core

Shallow embedding of the tennis-court booking bot:

* `database.py`  — the SQLite request repository, modelled as a list of
  `Request` rows (plus an auto-increment counter for inserts);
* `booking_scraper.py` — the Selenium booking engine, modelled over an
  abstract page/world describing which UI interactions succeed and which
  message elements are present and visible;
* `scheduler.py` — the daily batch run `process_pending_requests`.

Conventions: civil dates are abstracted as day indices (`Nat`), so the
eligible date `today + timedelta(days=2)` becomes `today + 2`; wall-clock
timestamps are abstracted as `Nat`.  Exceptions are modelled with
`Except String`, the `String` being the exception text.
-/

/-- A row of the `requests` table (`database.py`, `_init_db`). -/
structure Request where
  id : Nat
  user_id : String
  chat_id : String
  requested_date : Nat
  requested_time : String
  court_preference : Option String
  duration : Int
  status : String
  created_at : Nat
  processed_at : Option Nat
  result_message : Option String
deriving DecidableEq, Repr

/-- `Database.get_request`: `SELECT * FROM requests WHERE id = ?` (first row). -/
def get_request (rows : List Request) (request_id : Nat) : Option Request :=
  rows.find? (fun r => r.id == request_id)

/-- The `ORDER BY created_at` ordering of the queries in `database.py`. -/
def byCreated (a b : Request) : Prop := a.created_at ≤ b.created_at

instance : DecidableRel byCreated := fun a b => Nat.decLe a.created_at b.created_at

instance : IsTotal Request byCreated := ⟨fun a b => Nat.le_total a.created_at b.created_at⟩

instance : IsTrans Request byCreated := ⟨fun _ _ _ hab hbc => Nat.le_trans hab hbc⟩

/-- The `WHERE status = 'pending' AND requested_date = ?` row filter of
`Database.get_requests_for_date`. -/
def pendingFor (target_date : Nat) (r : Request) : Bool :=
  r.status == "pending" && r.requested_date == target_date

/-- `Database.get_requests_for_date`: pending requests for a specific date,
`ORDER BY created_at` (a stable sort on the stored row order). -/
def get_requests_for_date (rows : List Request) (target_date : Nat) : List Request :=
  List.insertionSort byCreated (rows.filter (pendingFor target_date))

/-- `Database.update_request_status`: `UPDATE requests SET status = ?,
processed_at = ?, result_message = ? WHERE id = ?`, with `processed_at`
taken from the current clock. -/
def update_request_status (rows : List Request) (request_id : Nat) (status : String)
    (result_message : Option String) (now : Nat) : List Request :=
  rows.map (fun r =>
    if r.id == request_id then
      { r with status := status, processed_at := some now, result_message := result_message }
    else r)

/-- The `WHERE id = ? AND user_id = ? AND status = 'pending'` condition of
`Database.cancel_request`. -/
def cancelHit (request_id : Nat) (user_id : String) (r : Request) : Bool :=
  r.id == request_id && r.user_id == user_id && r.status == "pending"

/-- `Database.cancel_request`: `UPDATE requests SET status = 'cancelled'
WHERE id = ? AND user_id = ? AND status = 'pending'`; the returned Bool is
`cursor.rowcount > 0`.  Note the update touches only `status`: neither
`processed_at` nor `result_message` is written. -/
def cancel_request (rows : List Request) (request_id : Nat) (user_id : String) :
    List Request × Bool :=
  (rows.map (fun r => if cancelHit request_id user_id r then { r with status := "cancelled" } else r),
   rows.any (cancelHit request_id user_id))

/-- Repository state: the stored rows plus the AUTOINCREMENT counter. -/
structure DBState where
  rows : List Request
  nextId : Nat
deriving Repr

/-- `Database.add_request`: INSERT with status `'pending'`, `created_at` from
the clock, `processed_at`/`result_message` NULL; returns the fresh row id. -/
def add_request (s : DBState) (user_id chat_id : String) (requested_date : Nat)
    (requested_time : String) (court_preference : Option String) (duration : Int)
    (now : Nat) : DBState × Nat :=
  (⟨s.rows ++ [⟨s.nextId, user_id, chat_id, requested_date, requested_time,
      court_preference, duration, "pending", now, none, none⟩], s.nextId + 1⟩,
   s.nextId)

/-- A repository operation, as exposed by `database.py` (create /
update_request_status / cancel_request). -/
inductive DBOp where
  | add (user_id chat_id : String) (requested_date : Nat) (requested_time : String)
      (court_preference : Option String) (duration : Int) (now : Nat)
  | update (request_id : Nat) (status : String) (result_message : Option String) (now : Nat)
  | cancel (request_id : Nat) (user_id : String)

/-- Apply one repository operation to the store. -/
def applyOp (s : DBState) : DBOp → DBState
  | .add u c d t pref dur now => (add_request s u c d t pref dur now).1
  | .update rid st msg now => ⟨update_request_status s.rows rid st msg now, s.nextId⟩
  | .cancel rid uid => ⟨(cancel_request s.rows rid uid).1, s.nextId⟩

/-- Run a sequence of repository operations. -/
def runOps (s : DBState) (ops : List DBOp) : DBState :=
  ops.foldl applyOp s

/-- The terminal lifecycle statuses (spec §3 / glossary). -/
def isTerminal (status : String) : Bool :=
  status == "completed" || status == "failed" || status == "cancelled"

/-- An operation as the spec's repository contract (§6) allows it:
`setTerminal` is only ever invoked with `completed` or `failed`. -/
def opRestricted : DBOp → Prop
  | .update _ st _ _ => st = "completed" ∨ st = "failed"
  | _ => True

/-! ## Time formatting (`BookingScraper._convert_time_format`) -/

/-- The `%H` directive of `datetime.strptime`: the Python `_strptime` regex
fragment `2[0-3]|[0-1]\d|\d`, alternatives tried in this order. -/
def parseH : List Char → Option (Nat × List Char)
  | '2' :: c2 :: rest =>
    if '0' ≤ c2 ∧ c2 ≤ '3' then some (20 + (c2.toNat - 48), rest)
    else some (2, c2 :: rest)
  | c1 :: c2 :: rest =>
    if ((c1 = '0' ∨ c1 = '1') ∧ c2.isDigit) then some ((c1.toNat - 48) * 10 + (c2.toNat - 48), rest)
    else if c1.isDigit then some (c1.toNat - 48, c2 :: rest)
    else none
  | [c1] => if c1.isDigit then some (c1.toNat - 48, []) else none
  | [] => none

/-- The `%M` directive of `datetime.strptime`: regex `[0-5]\d|\d`. -/
def parseM : List Char → Option (Nat × List Char)
  | c1 :: c2 :: rest =>
    if (('0' ≤ c1 ∧ c1 ≤ '5') ∧ c2.isDigit) then some ((c1.toNat - 48) * 10 + (c2.toNat - 48), rest)
    else if c1.isDigit then some (c1.toNat - 48, c2 :: rest)
    else none
  | [c1] => if c1.isDigit then some (c1.toNat - 48, []) else none
  | [] => none

/-- `datetime.strptime(time_str, '%H:%M')`: hour, literal colon, minute, and
the whole string must be consumed (otherwise `ValueError`). -/
def parseHM (s : String) : Option (Nat × Nat) :=
  match parseH s.data with
  | some (h, ':' :: rest) =>
    match parseM rest with
    | some (m, []) => some (h, m)
    | _ => none
  | _ => none

/-- Two-digit zero padding, as in `strftime`'s `%I`/`%M`. -/
def pad2 (n : Nat) : String :=
  if n < 10 then "0" ++ toString n else toString n

/-- `BookingScraper._convert_time_format`: convert `HH:MM` to the portal's
12-hour `%I:%M %p` label; on `ValueError` (input does not parse as `%H:%M`)
return the input unchanged. -/
def convert_time_format (time_str : String) : String :=
  match parseHM time_str with
  | some (h, m) =>
    pad2 ((h + 11) % 12 + 1) ++ ":" ++ pad2 m ++ " " ++ (if h < 12 then "AM" else "PM")
  | none => time_str

/-! ## The booking engine (`BookingScraper.make_booking`, `BookingScraper.login`) -/

/-- A DOM element as seen by the outcome scan: visibility and displayed text. -/
structure Element where
  displayed : Bool
  text : String
deriving DecidableEq, Repr

/-- The dict returned by `make_booking`: `{'success': ..., 'message': ...}`. -/
structure BookingResult where
  success : Bool
  message : String
deriving DecidableEq, Repr

/-- The ordered `success_indicators` XPath list of `make_booking`. -/
def success_indicators : List String :=
  ["//div[@id='_activities_WAR_northstarportlet_:activityForm:activityMessage']//label[contains(@class, 'portlet-msg-success')]",
   "//label[contains(text(), 'Reservation created successfully')]",
   "//label[contains(@class, 'activity-message') and contains(text(), 'successfully')]",
   "//div[contains(@class, 'ui-messages-info')]",
   "//div[contains(@class, 'ui-growl-item')]"]

/-- The ordered `error_indicators` XPath list of `make_booking`. -/
def error_indicators : List String :=
  ["//div[contains(@class, 'ui-messages-error')]",
   "//div[contains(@class, 'ui-message-error')]",
   "//div[contains(@class, 'ui-growl-error')]",
   "//div[contains(text(), 'error')]",
   "//div[contains(text(), 'unavailable')]",
   "//div[contains(text(), 'already booked')]"]

/-- The post-submit page: which element (if any) each locator resolves to. -/
def Page : Type := String → Option Element

/-- One pass of the indicator-scan loops in `make_booking`: walk the locator
list in order; a locator whose element is missing (`NoSuchElementException`)
or not displayed is skipped; return the first displayed element. -/
def findFirstVisible (page : Page) : List String → Option Element
  | [] => none
  | loc :: rest =>
    match page loc with
    | some el => if el.displayed then some el else findFirstVisible page rest
    | none => findFirstVisible page rest

/-- The outcome-detection tail of `make_booking` (success scan, then error
scan, then the neutral verify-manually result). -/
def detectOutcome (page : Page) (date : Nat) (time_slot : String) : BookingResult :=
  match findFirstVisible page success_indicators with
  | some el =>
    ⟨true, "Booking confirmed for " ++ toString date ++ " at " ++ time_slot ++ ": " ++ el.text⟩
  | none =>
    match findFirstVisible page error_indicators with
    | some el => ⟨false, "Booking failed: " ++ el.text⟩
    | none =>
      ⟨false, "Could not determine booking status - no clear success or error message found. Please verify manually."⟩

/-- Dropdown label id for the court dropdown (`make_booking` step 3.1). -/
def court_label_id : String := "_activities_WAR_northstarportlet_:activityForm:j_idt1068_label"

/-- Dropdown label id for the time dropdown (`make_booking` step 3.2). -/
def time_label_id : String := "_activities_WAR_northstarportlet_:activityForm:fromTime_label"

/-- Dropdown label id for the duration dropdown (`make_booking` step 3.3). -/
def duration_label_id : String := "_activities_WAR_northstarportlet_:activityForm:j_idt1082_label"

/-- The environment one `make_booking` attempt runs against: which stage
interactions succeed, which dropdown selections succeed
(`_select_dropdown_option`, keyed by label id and option text), and the
post-submit page. `pageExn` is an exception raised by the driver during
navigation (e.g. in `driver.get`), which nothing before the outer handler
catches. -/
structure ScraperWorld where
  pageExn : Option String
  dateLinkFound : Bool
  entryCellFound : Bool
  gridClickOk : Bool
  selectOk : String → String → Bool
  submitFound : Bool
  page : Page

/-- The body of the `try` block of `make_booking` (an `Except.error` is an
exception escaping to the outer handler).  Stage order as in the source:
date link (a `TimeoutException` here is uncaught locally), entry cell
(caught, dedicated message), multi-stage grid click, court dropdown
(failure only logged), time dropdown (failure fatal), duration dropdown
(failure only logged), submit-button search, then outcome detection. -/
def make_booking_body (w : ScraperWorld) (date : Nat) (time_slot : String)
    (_court_preference : Option String) (_duration_minutes : Int) :
    Except String BookingResult :=
  match w.pageExn with
  | some e => .error e
  | none =>
    if ¬ w.dateLinkFound then
      .error "TimeoutException: date link not clickable"
    else if ¬ w.entryCellFound then
      .ok ⟨false, "Entry slot (ID 11 at 06:00 AM) not found in grid."⟩
    else if ¬ w.gridClickOk then
      .ok ⟨false, "Found entry slot but could not trigger the click event."⟩
    else
      -- court-preference selection: attempted when a preference is given,
      -- but its failure is only logged and the flow proceeds
      if ¬ w.selectOk time_label_id (convert_time_format time_slot) then
        .ok ⟨false, "Could not select time " ++ convert_time_format time_slot ++ " in form dropdown."⟩
      else
        -- duration selection: failure only logged, flow proceeds
        if ¬ w.submitFound then
          .ok ⟨false, "Could not find or click submit button"⟩
        else
          .ok (detectOutcome w.page date time_slot)

/-- `BookingScraper.make_booking`: the whole attempt runs inside
`try ... except Exception as e`, converting any exception into a failure
dict embedding the exception text. -/
def make_booking (w : ScraperWorld) (date : Nat) (time_slot : String)
    (court_preference : Option String) (duration_minutes : Int) : BookingResult :=
  match make_booking_body w date time_slot court_preference duration_minutes with
  | .ok r => r
  | .error e => ⟨false, "Booking error: " ++ e⟩

/-- Lower-case a string character by character (`str.lower()`). -/
def lowerStr (s : String) : String := String.mk (s.data.map Char.toLower)

/-- Is `sub` an infix of `l`?  (Python's `sub in s`.) -/
def listInfix (sub : List Char) : List Char → Bool
  | [] => sub.isEmpty
  | c :: rest => sub.isPrefixOf (c :: rest) || listInfix sub rest

/-- Python's `'login' in current_url.lower()`. -/
def containsLogin (url : String) : Bool := listInfix "login".data (lowerStr url).data

/-- The environment one `login` call runs against.  `driverSet` is whether
`self.driver` is already initialized; `setup` is the outcome of
`_setup_driver` (which re-raises on failure); `tryExn` is an exception
raised inside the `try` block (page load, typing, clicking). -/
structure LoginWorld where
  driverSet : Bool
  setup : Except String Unit
  tryExn : Option String
  usernameFieldFound : Bool
  passwordFieldFound : Bool
  currentUrl : String

/-- The body of `login`'s `try` block: missing username or password field
returns `False`; after submitting, a URL still containing `login` returns
`False`; otherwise `True`.  An `Except.error` is an exception raised inside
the block. -/
def login_try (w : LoginWorld) : Except String Bool :=
  match w.tryExn with
  | some e => .error e
  | none =>
    if ¬ w.usernameFieldFound then .ok false
    else if ¬ w.passwordFieldFound then .ok false
    else if containsLogin w.currentUrl then .ok false
    else .ok true

/-- `BookingScraper.login`.  Note the control flow of the source: the
`if not self.driver: self._setup_driver()` guard runs *before* the
`try` block, so an exception raised by driver setup propagates to the
caller; only exceptions inside the `try` block are converted to `False`. -/
def login (w : LoginWorld) : Except String Bool :=
  if w.driverSet then
    match login_try w with
    | .ok b => .ok b
    | .error _ => .ok false
  else
    match w.setup with
    | .error e => .error e
    | .ok _ =>
      match login_try w with
      | .ok b => .ok b
      | .error _ => .ok false

/-! ## The batch run (`BookingScheduler.process_pending_requests`) -/

/-- The login-failure diagnostic of `process_pending_requests`. -/
def login_fail_msg : String := "Failed to login to booking website"

/-- The state threaded through one batch run: the repository rows, the
notification texts handed to `bot.send_message` (channel id, text), and the
requests `make_booking` was invoked for, in invocation order. -/
structure BatchResult where
  rows : List Request
  notifications : List (String × String)
  attempted : List Request
deriving Repr

/-- The login-failure loop body: mark the request `failed` with the login
diagnostic and notify its requester (`scheduler.py` lines 56-64). -/
def loginFailStep (now : Nat) (acc : BatchResult) (req : Request) : BatchResult :=
  { rows := update_request_status acc.rows req.id "failed" (some login_fail_msg) now
    notifications := acc.notifications ++
      [(req.chat_id, "❌ Booking request #" ++ toString req.id ++ " failed: " ++ login_fail_msg)]
    attempted := acc.attempted }

/-- The per-request processing body (`scheduler.py` lines 68-104): call
`make_booking`; on a normal result persist `completed`/`failed` with the
result message and notify; an exception anywhere in the block is caught,
the request is marked `failed` with `Error: <text>`, and the loop
continues.  `outcome req` is the result of processing request `req`
(`Except.error` = an exception escaping `make_booking`'s caller-side code). -/
def bookStep (outcome : Request → Except String BookingResult) (now : Nat)
    (acc : BatchResult) (req : Request) : BatchResult :=
  match outcome req with
  | .ok r =>
    { rows := update_request_status acc.rows req.id
        (if r.success then "completed" else "failed") (some r.message) now
      notifications := acc.notifications ++
        [(req.chat_id, (if r.success then "✅" else "❌") ++ " Booking request #" ++
          toString req.id ++ ": " ++ r.message)]
      attempted := acc.attempted ++ [req] }
  | .error e =>
    { rows := update_request_status acc.rows req.id "failed" (some ("Error: " ++ e)) now
      notifications := acc.notifications ++
        [(req.chat_id, "❌ Booking request #" ++ toString req.id ++ " failed: " ++ e)]
      attempted := acc.attempted ++ [req] }

/-- The environment of one batch run: today's civil date, the clock, the
result of `scraper.login()`, and the outcome of processing each request. -/
structure BotWorld where
  today : Nat
  now : Nat
  loginOk : Bool
  outcome : Request → Except String BookingResult

/-- `BookingScheduler.process_pending_requests`: compute the eligible date
(`today + 2`), fetch its pending requests, stop if there are none; on login
failure mark every fetched request `failed` with the same diagnostic and
notify each requester, attempting no booking; on login success process the
fetched requests in order. -/
def process_pending_requests (w : BotWorld) (rows : List Request) : BatchResult :=
  let target_date := w.today + 2
  let requests := get_requests_for_date rows target_date
  if requests.isEmpty then ⟨rows, [], []⟩
  else if w.loginOk then requests.foldl (bookStep w.outcome w.now) ⟨rows, [], []⟩
  else requests.foldl (loginFailStep w.now) ⟨rows, [], []⟩

/-! ## Helper lemmas -/

theorem fetched_perm (rows : List Request) (t : Nat) :
    List.Perm (get_requests_for_date rows t) (rows.filter (pendingFor t)) :=
  List.perm_insertionSort byCreated (rows.filter (pendingFor t))

theorem mem_fetched_iff (rows : List Request) (t : Nat) (q : Request) :
    q ∈ get_requests_for_date rows t ↔ q ∈ rows.filter (pendingFor t) :=
  (fetched_perm rows t).mem_iff

theorem fetched_ids_nodup (rows : List Request) (t : Nat)
    (hnd : (rows.map (fun r => r.id)).Nodup) :
    ((get_requests_for_date rows t).map (fun r => r.id)).Nodup := by
  have h1 := (fetched_perm rows t).map (fun r => r.id)
  have h2 : ((rows.filter (pendingFor t)).map (fun r => r.id)).Nodup :=
    hnd.sublist ((rows.filter_sublist).map (fun r => r.id))
  exact h1.nodup_iff.mpr h2

theorem find?_id_self (rows : List Request) (hnd : (rows.map (fun r => r.id)).Nodup)
    (a : Request) (ha : a ∈ rows) : rows.find? (fun r => r.id == a.id) = some a := by
  induction rows with
  | nil => cases ha
  | cons b bs ih =>
    have hnd' : b.id ∉ bs.map (fun r => r.id) ∧ (bs.map (fun r => r.id)).Nodup := by
      simpa using hnd
    rcases List.mem_cons.mp ha with h | h
    · subst h
      exact List.find?_cons_of_pos _ (by simp)
    · by_cases hb : b.id = a.id
      · exact absurd (hb ▸ List.mem_map.mpr ⟨a, h, rfl⟩) hnd'.1
      · rw [List.find?_cons_of_neg _ (by simpa using hb)]
        exact ih hnd'.2 h

theorem get_request_map (T : Request → Request) (hT : ∀ r, (T r).id = r.id)
    (rows : List Request) (rid : Nat) :
    get_request (rows.map T) rid = (get_request rows rid).map T := by
  unfold get_request
  rw [List.find?_map T rows]
  have : (fun r => r.id == rid) ∘ T = (fun r => r.id == rid) := by
    funext r
    simp [Function.comp, hT r]
  rw [this]

theorem foldl_update_eq_map (U : Request → Request → Request)
    (hU : ∀ q r, (U q r).id = r.id) (reqs : List Request) :
    (reqs.map (fun r => r.id)).Nodup →
    ∀ rows : List Request,
      reqs.foldl (fun d q => d.map (fun r => if r.id == q.id then U q r else r)) rows =
      rows.map (fun r =>
        match reqs.find? (fun q => q.id == r.id) with
        | some q => U q r
        | none => r) := by
  induction reqs with
  | nil =>
    intro _ rows
    simp [List.find?]
  | cons q qs ih =>
    intro hnd rows
    have hnd' : q.id ∉ qs.map (fun r => r.id) ∧ (qs.map (fun r => r.id)).Nodup := by
      simpa using hnd
    rw [List.foldl_cons, ih hnd'.2, List.map_map]
    refine List.map_congr_left ?_
    intro r _
    by_cases hc : r.id = q.id
    · have hb : (r.id == q.id) = true := by simp [hc]
      have hfind : qs.find? (fun x => x.id == r.id) = none := by
        refine List.find?_eq_none.mpr ?_
        intro x hx hbx
        have hxr : x.id = r.id := by simpa using hbx
        exact hnd'.1 (hc ▸ hxr ▸ List.mem_map.mpr ⟨x, hx, rfl⟩)
      have hhead : (q::qs).find? (fun x => x.id == r.id) = some q :=
        List.find?_cons_of_pos _ (by simp [hc])
      have hid : (U q r).id = r.id := hU q r
      simp only [Function.comp_apply]
      rw [if_pos hb, hid, hfind, hhead]
    · have hb : (r.id == q.id) = false := by simpa using hc
      have hhead : (q::qs).find? (fun x => x.id == r.id) = qs.find? (fun x => x.id == r.id) :=
        List.find?_cons_of_neg _ (by simpa using fun h => hc (Eq.symm h))
      simp only [Function.comp_apply]
      rw [if_neg (by simpa using hc), hhead]

/-- The row update the login-failure loop applies to each fetched request. -/
def failUpd (now : Nat) (r : Request) : Request :=
  { r with status := "failed", processed_at := some now, result_message := some login_fail_msg }

/-- The row update processing request `q` applies to its row. -/
def bookUpd (outcome : Request → Except String BookingResult) (now : Nat)
    (q r : Request) : Request :=
  match outcome q with
  | .ok res =>
    { r with
      status := (if res.success then "completed" else "failed")
      processed_at := some now
      result_message := some res.message }
  | .error e =>
    { r with
      status := "failed"
      processed_at := some now
      result_message := some ("Error: " ++ e) }

theorem bookUpd_id (oc : Request → Except String BookingResult) (now : Nat)
    (q r : Request) : (bookUpd oc now q r).id = r.id := by
  unfold bookUpd
  cases oc q <;> rfl

theorem foldl_loginFailStep_rows (now : Nat) (reqs : List Request) (acc : BatchResult) :
    (reqs.foldl (loginFailStep now) acc).rows =
    reqs.foldl (fun d q => d.map (fun r => if r.id == q.id then failUpd now r else r)) acc.rows := by
  induction reqs generalizing acc with
  | nil => rfl
  | cons q qs ih =>
    rw [List.foldl_cons, List.foldl_cons, ih]
    rfl

theorem foldl_loginFailStep_notifications (now : Nat) (reqs : List Request) (acc : BatchResult) :
    (reqs.foldl (loginFailStep now) acc).notifications =
    acc.notifications ++ reqs.map (fun q =>
      (q.chat_id, "❌ Booking request #" ++ toString q.id ++ " failed: " ++ login_fail_msg)) := by
  induction reqs generalizing acc with
  | nil => simp
  | cons q qs ih =>
    rw [List.foldl_cons, ih]
    simp [loginFailStep]

theorem foldl_loginFailStep_attempted (now : Nat) (reqs : List Request) (acc : BatchResult) :
    (reqs.foldl (loginFailStep now) acc).attempted = acc.attempted := by
  induction reqs generalizing acc with
  | nil => rfl
  | cons q qs ih =>
    rw [List.foldl_cons, ih]
    rfl

theorem foldl_bookStep_rows (oc : Request → Except String BookingResult) (now : Nat)
    (reqs : List Request) (acc : BatchResult) :
    (reqs.foldl (bookStep oc now) acc).rows =
    reqs.foldl (fun d q => d.map (fun r => if r.id == q.id then bookUpd oc now q r else r)) acc.rows := by
  induction reqs generalizing acc with
  | nil => rfl
  | cons q qs ih =>
    rw [List.foldl_cons, List.foldl_cons, ih]
    congr 1
    cases h : oc q <;> simp [bookStep, bookUpd, h, update_request_status]

theorem foldl_bookStep_attempted (oc : Request → Except String BookingResult) (now : Nat)
    (reqs : List Request) (acc : BatchResult) :
    (reqs.foldl (bookStep oc now) acc).attempted = acc.attempted ++ reqs := by
  induction reqs generalizing acc with
  | nil => simp
  | cons q qs ih =>
    rw [List.foldl_cons, ih]
    cases h : oc q <;> simp [bookStep, h]

theorem process_rows_char (w : BotWorld) (rows : List Request)
    (hnd : (rows.map (fun r => r.id)).Nodup) :
    (process_pending_requests w rows).rows =
    rows.map (fun r =>
      match (get_requests_for_date rows (w.today + 2)).find? (fun q => q.id == r.id) with
      | some q => if w.loginOk then bookUpd w.outcome w.now q r else failUpd w.now r
      | none => r) := by
  have hfnd := fetched_ids_nodup rows (w.today + 2) hnd
  by_cases hemp : (get_requests_for_date rows (w.today + 2)).isEmpty = true
  · have hnil : get_requests_for_date rows (w.today + 2) = [] := by
      simpa using hemp
    simp [process_pending_requests, hnil, List.find?]
  · cases hlog : w.loginOk
    · have hb : (process_pending_requests w rows).rows =
          ((get_requests_for_date rows (w.today + 2)).foldl (loginFailStep w.now) ⟨rows, [], []⟩).rows := by
        simp [process_pending_requests, hemp, hlog]
      rw [hb, foldl_loginFailStep_rows]
      have hch := foldl_update_eq_map (fun _ r => failUpd w.now r) (fun _ _ => rfl)
        (get_requests_for_date rows (w.today + 2)) hfnd rows
      refine hch.trans ?_
      refine List.map_congr_left ?_
      intro r _
      cases (get_requests_for_date rows (w.today + 2)).find? (fun q => q.id == r.id) <;>
        simp [hlog]
    · have hb : (process_pending_requests w rows).rows =
          ((get_requests_for_date rows (w.today + 2)).foldl (bookStep w.outcome w.now) ⟨rows, [], []⟩).rows := by
        simp [process_pending_requests, hemp, hlog]
      rw [hb, foldl_bookStep_rows]
      have hch := foldl_update_eq_map (bookUpd w.outcome w.now)
        (bookUpd_id w.outcome w.now)
        (get_requests_for_date rows (w.today + 2)) hfnd rows
      refine hch.trans ?_
      refine List.map_congr_left ?_
      intro r _
      cases (get_requests_for_date rows (w.today + 2)).find? (fun q => q.id == r.id) <;>
        simp [hlog]

theorem process_get_request (w : BotWorld) (rows : List Request)
    (hnd : (rows.map (fun r => r.id)).Nodup) (req : Request)
    (hreq : req ∈ get_requests_for_date rows (w.today + 2)) :
    get_request (process_pending_requests w rows).rows req.id =
      some (if w.loginOk then bookUpd w.outcome w.now req req else failUpd w.now req) := by
  have hfnd := fetched_ids_nodup rows (w.today + 2) hnd
  have hmem : req ∈ rows := List.mem_of_mem_filter ((mem_fetched_iff rows (w.today + 2) req).mp hreq)
  rw [process_rows_char w rows hnd]
  have hT : ∀ r : Request,
      ((fun (r : Request) =>
        match (get_requests_for_date rows (w.today + 2)).find? (fun (q : Request) => q.id == r.id) with
        | some q => if w.loginOk then bookUpd w.outcome w.now q r else failUpd w.now r
        | none => r) r).id = r.id := by
    intro r
    cases hf : (get_requests_for_date rows (w.today + 2)).find? (fun (q : Request) => q.id == r.id) with
    | some q => cases hl : w.loginOk <;> simp [hf, hl, bookUpd_id, failUpd]
    | none => simp [hf]
  rw [get_request_map _ hT rows req.id]
  unfold get_request
  rw [find?_id_self rows hnd req hmem]
  simp only [Option.map_some']
  rw [find?_id_self (get_requests_for_date rows (w.today + 2)) hfnd req hreq]

theorem process_get_request_frame (w : BotWorld) (rows : List Request)
    (hnd : (rows.map (fun r => r.id)).Nodup) (row : Request) (hrow : row ∈ rows)
    (hnp : pendingFor (w.today + 2) row = false) :
    get_request (process_pending_requests w rows).rows row.id = some row := by
  rw [process_rows_char w rows hnd]
  have hT : ∀ r : Request,
      ((fun (r : Request) =>
        match (get_requests_for_date rows (w.today + 2)).find? (fun (q : Request) => q.id == r.id) with
        | some q => if w.loginOk then bookUpd w.outcome w.now q r else failUpd w.now r
        | none => r) r).id = r.id := by
    intro r
    cases hf : (get_requests_for_date rows (w.today + 2)).find? (fun (q : Request) => q.id == r.id) with
    | some q => cases hl : w.loginOk <;> simp [hf, hl, bookUpd_id, failUpd]
    | none => simp [hf]
  rw [get_request_map _ hT rows row.id]
  unfold get_request
  rw [find?_id_self rows hnd row hrow]
  simp only [Option.map_some']
  have hnone : (get_requests_for_date rows (w.today + 2)).find? (fun q => q.id == row.id) = none := by
    refine List.find?_eq_none.mpr ?_
    intro q hq hbq
    have hqrow : q.id = row.id := by simpa using hbq
    have hqfil : q ∈ rows.filter (pendingFor (w.today + 2)) :=
      (mem_fetched_iff rows (w.today + 2) q).mp hq
    have hqrows : q ∈ rows := List.mem_of_mem_filter hqfil
    have hqeq : q = row := List.inj_on_of_nodup_map hnd hqrows hrow hqrow
    have hp : pendingFor (w.today + 2) q = true := List.of_mem_filter hqfil
    rw [hqeq, hnp] at hp
    exact Bool.false_ne_true hp
  rw [hnone]

theorem terminal_ne_pending (st : String) (h : isTerminal st = true) : st ≠ "pending" := by
  intro he
  rw [he] at h
  exact absurd h (by decide)

theorem applyOp_preserves_terminal (s : DBState) (op : DBOp) (hop : opRestricted op)
    (rid : Nat) (r : Request) (hr : get_request s.rows rid = some r)
    (ht : isTerminal r.status = true) :
    ∃ r', get_request (applyOp s op).rows rid = some r' ∧ isTerminal r'.status = true := by
  cases op with
  | add u c d t pref dur now =>
    refine ⟨r, ?_, ht⟩
    unfold get_request at hr ⊢
    unfold applyOp add_request
    simp only []
    rw [List.find?_append, hr]
    rfl
  | update rid' st msg now =>
    have hT : ∀ x : Request,
        ((fun x => if x.id == rid' then
          { x with status := st, processed_at := some now, result_message := msg }
          else x) x).id = x.id := by
      intro x
      by_cases hx : (x.id == rid') = true <;> simp [hx]
    refine ⟨(if r.id == rid' then
        { r with status := st, processed_at := some now, result_message := msg } else r), ?_, ?_⟩
    · show get_request (update_request_status s.rows rid' st msg now) rid = _
      unfold update_request_status
      rw [get_request_map _ hT s.rows rid, hr]
      rfl
    · by_cases hx : (r.id == rid') = true
      · simp only [hx, if_true]
        rcases hop with hst | hst <;> rw [hst] <;> rfl
      · simp only [hx]
        simpa using ht
  | cancel rid' uid =>
    have hT : ∀ x : Request,
        ((fun x => if cancelHit rid' uid x then { x with status := "cancelled" } else x) x).id
          = x.id := by
      intro x
      by_cases hx : cancelHit rid' uid x = true <;> simp [hx]
    refine ⟨(if cancelHit rid' uid r then { r with status := "cancelled" } else r), ?_, ?_⟩
    · show get_request ((cancel_request s.rows rid' uid).1) rid = _
      unfold cancel_request
      rw [get_request_map _ hT s.rows rid, hr]
      rfl
    · by_cases hx : cancelHit rid' uid r = true
      · simp only [hx, if_true]
        rfl
      · simp only [hx]
        simpa using ht

theorem make_booking_success_shape (w : ScraperWorld) (date : Nat) (ts : String)
    (pref : Option String) (dur : Int) :
    make_booking w date ts pref dur = detectOutcome w.page date ts ∨
    (make_booking w date ts pref dur).success = false := by
  unfold make_booking make_booking_body
  cases w.pageExn with
  | some e => exact Or.inr rfl
  | none =>
    by_cases h1 : w.dateLinkFound = true
    · by_cases h2 : w.entryCellFound = true
      · by_cases h3 : w.gridClickOk = true
        · by_cases h4 : w.selectOk time_label_id (convert_time_format ts) = true
          · by_cases h5 : w.submitFound = true
            · left
              simp [h1, h2, h3, h4, h5]
            · right
              simp [h1, h2, h3, h4, h5]
          · right
            simp [h1, h2, h3, h4]
        · right
          simp [h1, h2, h3]
      · right
        simp [h1, h2]
    · right
      simp [h1]

theorem detectOutcome_success_isSome (page : Page) (date : Nat) (ts : String) :
    (detectOutcome page date ts).success = true →
    (findFirstVisible page success_indicators).isSome = true := by
  unfold detectOutcome
  cases h : findFirstVisible page success_indicators with
  | some el => intro _; rfl
  | none =>
    cases h2 : findFirstVisible page error_indicators with
    | some el => intro hs; simp at hs
    | none => intro hs; simp at hs

/-! ## Claims -/

/-- C8: the time-format conversion maps every 24-hour `HH:MM` input to the
12-hour-with-meridiem label with a leading zero on the hour (`"14:05"` ↦
`"02:05 PM"`, `"06:00"` ↦ `"06:00 AM"`), and returns every input that does
not parse as `%H:%M` — including an already-12-hour label — unchanged. -/
theorem C8_time_format_conversion :
    convert_time_format "14:05" = "02:05 PM" ∧
    convert_time_format "06:00" = "06:00 AM" ∧
    convert_time_format "02:05 PM" = "02:05 PM" ∧
    (∀ h, h < 24 → ∀ m, m < 60 →
      convert_time_format (pad2 h ++ ":" ++ pad2 m) =
        pad2 ((h + 11) % 12 + 1) ++ ":" ++ pad2 m ++ " " ++ (if h < 12 then "AM" else "PM")) ∧
    (∀ s, parseHM s = none → convert_time_format s = s) := by
  refine ⟨by decide, by decide, by decide, by decide, ?_⟩
  intro s hs
  unfold convert_time_format
  rw [hs]

theorem C8_witness :
    convert_time_format (pad2 14 ++ ":" ++ pad2 5) = "02:05 PM" ∧
    convert_time_format "noon" = "noon" := by
  constructor
  · exact (C8_time_format_conversion.2.2.2.1 14 (by decide) 5 (by decide)).trans (by decide)
  · exact C8_time_format_conversion.2.2.2.2 "noon" (by decide)

/-- C6: `cancel_request` returns true and sets the row to `cancelled`
exactly when the request exists, is currently `pending`, and is owned by the
caller; otherwise it returns false and leaves the store unchanged, and
repeating a cancellation is a no-op that returns false. -/
theorem C6_cancel_ownership_idempotence (rows : List Request) (rid : Nat) (uid : String) :
    ((cancel_request rows rid uid).2 = true ↔
      ∃ r ∈ rows, r.id = rid ∧ r.user_id = uid ∧ r.status = "pending") ∧
    ((cancel_request rows rid uid).2 = false → (cancel_request rows rid uid).1 = rows) ∧
    ((rows.map (fun r => r.id)).Nodup → ∀ r ∈ rows,
      r.id = rid → r.user_id = uid → r.status = "pending" →
      get_request (cancel_request rows rid uid).1 rid = some { r with status := "cancelled" }) ∧
    cancel_request (cancel_request rows rid uid).1 rid uid =
      ((cancel_request rows rid uid).1, false) := by
  refine ⟨?_, ?_, ?_, ?_⟩
  · show rows.any (cancelHit rid uid) = true ↔ _
    rw [List.any_eq_true]
    constructor
    · rintro ⟨r, hr, hhit⟩
      have h3 : r.id = rid ∧ r.user_id = uid ∧ r.status = "pending" := by
        simpa [cancelHit, and_assoc] using hhit
      exact ⟨r, hr, h3⟩
    · rintro ⟨r, hr, h1, h2, h3⟩
      exact ⟨r, hr, by simp [cancelHit, h1, h2, h3]⟩
  · intro h
    have h' : ∀ r ∈ rows, cancelHit rid uid r = false := by
      intro r hr
      have := List.any_eq_false.mp h r hr
      simpa using this
    show rows.map _ = rows
    have hpt : ∀ r ∈ rows,
        (if cancelHit rid uid r then { r with status := "cancelled" } else r) = (fun r => r) r := by
      intro r hr
      rw [if_neg]
      simp [h' r hr]
    rw [List.map_congr_left hpt, List.map_id']
  · intro hnd r hr h1 h2 h3
    have hT : ∀ x : Request,
        ((fun x => if cancelHit rid uid x then { x with status := "cancelled" } else x) x).id
          = x.id := by
      intro x
      by_cases hx : cancelHit rid uid x = true <;> simp [hx]
    show get_request (rows.map _) rid = _
    rw [get_request_map _ hT rows rid]
    subst h1
    unfold get_request
    rw [find?_id_self rows hnd r hr]
    simp only [Option.map_some']
    rw [if_pos (by simp [cancelHit, h2, h3])]
  · unfold cancel_request
    simp only [Prod.mk.injEq]
    constructor
    · rw [List.map_map]
      refine List.map_congr_left ?_
      intro r _
      simp only [Function.comp_apply]
      by_cases hx : cancelHit rid uid r = true
      · rw [if_pos hx, if_neg]
        simp [cancelHit]
      · rw [if_neg (by simp [hx]), if_neg (by simp [hx])]
    · rw [List.any_map]
      refine List.any_eq_false.mpr ?_
      intro r _
      simp only [Function.comp_apply]
      by_cases hx : cancelHit rid uid r = true
      · rw [if_pos hx]
        simp [cancelHit]
      · rw [if_neg (by simp [hx])]
        simp [hx]

def c6_row : Request :=
  ⟨7, "carol", "chatC", 12, "11:00", some "Court 2", 60, "pending", 4, none, none⟩

theorem C6_witness :
    (cancel_request [c6_row] 7 "carol").2 = true ∧
    get_request (cancel_request [c6_row] 7 "carol").1 7 =
      some { c6_row with status := "cancelled" } := by
  constructor
  · exact (C6_cancel_ownership_idempotence [c6_row] 7 "carol").1.mpr
      ⟨c6_row, by decide, rfl, rfl, rfl⟩
  · exact (C6_cancel_ownership_idempotence [c6_row] 7 "carol").2.2.1 (by decide)
      c6_row (by decide) rfl rfl rfl

def c9_row : Request :=
  ⟨1, "alice", "chat1", 10, "10:00", none, 90, "pending", 0, none, none⟩

/-- C9 counterexample: cancelling a pending request sets its status to
`cancelled` but leaves `processed_at` NULL — the cancellation terminal
transition does not record a processed timestamp, unlike
`update_request_status`. -/
theorem C9_counterexample :
    (get_request (cancel_request [c9_row] 1 "alice").1 1).map
      (fun r => (r.status, r.processed_at)) = some ("cancelled", none) := by
  decide

/-- C9 (amended): terminal transitions performed through
`update_request_status` (`completed`/`failed`) set the processed timestamp,
but `cancel_request` writes only the status and leaves every row's
processed timestamp unchanged. -/
theorem C9_processed_timestamp (rows : List Request) :
    (∀ (rid : Nat) (st : String) (msg : Option String) (now : Nat),
      ∀ r' ∈ update_request_status rows rid st msg now,
        r'.id = rid → r'.processed_at = some now) ∧
    (∀ (rid : Nat) (uid : String),
      ((cancel_request rows rid uid).1).map (fun r => r.processed_at) =
        rows.map (fun r => r.processed_at)) := by
  constructor
  · intro rid st msg now r' hr' hid
    rcases List.mem_map.mp hr' with ⟨r, hr, hTr⟩
    by_cases hb : (r.id == rid) = true
    · rw [← hTr, if_pos hb]
    · rw [← hTr, if_neg (by simpa using hb)] at hid
      exact absurd hid (by simpa using hb)
  · intro rid uid
    show (rows.map _).map _ = _
    rw [List.map_map]
    refine List.map_congr_left ?_
    intro r _
    simp only [Function.comp_apply]
    by_cases hx : cancelHit rid uid r = true
    · rw [if_pos hx]
    · rw [if_neg (by simp [hx])]

theorem C9_witness :
    ((cancel_request [c9_row] 1 "alice").1).map (fun r => r.processed_at) =
      [c9_row].map (fun r => r.processed_at) :=
  (C9_processed_timestamp [c9_row]).2 1 "alice"

def c5_ops_base : List DBOp :=
  [DBOp.add "alice" "chat1" 10 "10:00" none 90 0,
   DBOp.update 1 "completed" (some "Booking confirmed") 1]

/-- C5 counterexample: `update_request_status` accepts any status string, so
a reachable repository-operation sequence (create, set `completed`, set
`pending`) reverts a terminal request back to `pending`. -/
theorem C5_counterexample :
    (get_request (runOps ⟨[], 1⟩ c5_ops_base).rows 1).map (fun r => r.status) =
      some "completed" ∧
    (get_request (runOps ⟨[], 1⟩
        (c5_ops_base ++ [DBOp.update 1 "pending" none 2])).rows 1).map
      (fun r => r.status) = some "pending" := by
  constructor <;> decide

/-- C5 (amended): when `update_request_status` is only ever invoked with the
terminal statuses `completed`/`failed` — the spec's `setTerminal` contract,
and what every call site does — status transitions are monotonic: a row that
is terminal stays terminal (never reverts to `pending`) across any operation
sequence, and a row can become `cancelled` only from `pending`, only through
`cancel_request` by its owner. -/
theorem C5_monotonic_transitions (ops : List DBOp)
    (hops : ∀ op ∈ ops, opRestricted op) :
    (∀ (s : DBState) (rid : Nat) (r : Request),
      get_request s.rows rid = some r → isTerminal r.status = true →
      ∃ r', get_request (runOps s ops).rows rid = some r' ∧
        isTerminal r'.status = true ∧ r'.status ≠ "pending") ∧
    (∀ (s : DBState) (op : DBOp), opRestricted op →
      ∀ (rid : Nat) (r' : Request),
        get_request (applyOp s op).rows rid = some r' → r'.status = "cancelled" →
        (∃ r, get_request s.rows rid = some r ∧ r.status = "cancelled") ∨
        (∃ r uid, op = DBOp.cancel rid uid ∧ get_request s.rows rid = some r ∧
          r.status = "pending" ∧ r.user_id = uid)) := by
  constructor
  · have main : ∀ (ops' : List DBOp), (∀ op ∈ ops', opRestricted op) →
        ∀ (s : DBState) (rid : Nat) (r : Request),
          get_request s.rows rid = some r → isTerminal r.status = true →
          ∃ r', get_request (runOps s ops').rows rid = some r' ∧
            isTerminal r'.status = true := by
      intro ops'
      induction ops' with
      | nil =>
        intro _ s rid r hr ht
        exact ⟨r, hr, ht⟩
      | cons op rest ih =>
        intro hops' s rid r hr ht
        obtain ⟨r1, hr1, ht1⟩ :=
          applyOp_preserves_terminal s op (hops' op (List.mem_cons_self op rest)) rid r hr ht
        obtain ⟨r', hr', ht'⟩ :=
          ih (fun o ho => hops' o (List.mem_cons_of_mem op ho)) (applyOp s op) rid r1 hr1 ht1
        exact ⟨r', hr', ht'⟩
    intro s rid r hr ht
    obtain ⟨r', hr', ht'⟩ := main ops hops s rid r hr ht
    exact ⟨r', hr', ht', terminal_ne_pending r'.status ht'⟩
  · intro s op hop rid r' hr' hc
    cases op with
    | add u c d t pref dur now =>
      left
      unfold applyOp add_request get_request at hr'
      simp only [] at hr'
      rw [List.find?_append] at hr'
      cases hfind : s.rows.find? (fun x => x.id == rid) with
      | some r0 =>
        rw [hfind] at hr'
        have h0 : some r0 = some r' := hr'
        refine ⟨r0, hfind, ?_⟩
        rw [Option.some_inj.mp h0]
        exact hc
      | none =>
        rw [hfind] at hr'
        exfalso
        have hr3 : List.find? (fun r => r.id == rid)
            [(⟨s.nextId, u, c, d, t, pref, dur, "pending", now, none, none⟩ : Request)] =
            some r' := hr'
        have hr2 : r' ∈
            [(⟨s.nextId, u, c, d, t, pref, dur, "pending", now, none, none⟩ : Request)] :=
          List.mem_of_find?_eq_some hr3
        have heq : r' = ⟨s.nextId, u, c, d, t, pref, dur, "pending", now, none, none⟩ :=
          List.mem_singleton.mp hr2
        rw [heq] at hc
        exact absurd (show ("pending" : String) = "cancelled" from hc) (by decide)
    | update rid' st msg now =>
      have hT : ∀ x : Request,
          ((fun x => if x.id == rid' then
            { x with status := st, processed_at := some now, result_message := msg }
            else x) x).id = x.id := by
        intro x
        by_cases hx : (x.id == rid') = true <;> simp [hx]
      have hmap : get_request (applyOp s (DBOp.update rid' st msg now)).rows rid =
          (get_request s.rows rid).map
            (fun x => if x.id == rid' then
              { x with status := st, processed_at := some now, result_message := msg }
              else x) := by
        show get_request (update_request_status s.rows rid' st msg now) rid = _
        unfold update_request_status
        rw [get_request_map _ hT s.rows rid]
      rw [hmap] at hr'
      rcases Option.map_eq_some'.mp hr' with ⟨r0, hr0, hTr0⟩
      by_cases hx : (r0.id == rid') = true
      · exfalso
        rw [← hTr0, if_pos hx] at hc
        simp only [] at hc
        rcases hop with hst | hst <;> rw [hst] at hc <;> exact absurd hc (by decide)
      · left
        rw [← hTr0, if_neg (by simpa using hx)] at hc
        exact ⟨r0, hr0, hc⟩
    | cancel rid' uid =>
      have hT : ∀ x : Request,
          ((fun x => if cancelHit rid' uid x then { x with status := "cancelled" } else x) x).id
            = x.id := by
        intro x
        by_cases hx : cancelHit rid' uid x = true <;> simp [hx]
      have hmap : get_request (applyOp s (DBOp.cancel rid' uid)).rows rid =
          (get_request s.rows rid).map
            (fun x => if cancelHit rid' uid x then { x with status := "cancelled" } else x) := by
        show get_request ((cancel_request s.rows rid' uid).1) rid = _
        unfold cancel_request
        rw [get_request_map _ hT s.rows rid]
      rw [hmap] at hr'
      rcases Option.map_eq_some'.mp hr' with ⟨r0, hr0, hTr0⟩
      by_cases hx : cancelHit rid' uid r0 = true
      · right
        have hhit : r0.id = rid' ∧ r0.user_id = uid ∧ r0.status = "pending" := by
          simpa [cancelHit, and_assoc] using hx
        have hrid : r0.id = rid := by
          have := List.find?_some hr0
          simpa using this
      
        refine ⟨r0, uid, ?_, hr0, hhit.2.2, hhit.2.1⟩
        rw [← hrid, hhit.1]
      · left
        rw [← hTr0, if_neg (by simp [hx])] at hc
        exact ⟨r0, hr0, hc⟩

def c5_state : DBState :=
  ⟨[⟨1, "alice", "chat1", 10, "10:00", none, 90, "completed", 0, some 1, some "done"⟩], 2⟩

theorem C5_witness :
    ∃ r', get_request (runOps c5_state [DBOp.update 1 "failed" (some "m") 5]).rows 1 = some r' ∧
      isTerminal r'.status = true ∧ r'.status ≠ "pending" :=
  (C5_monotonic_transitions [DBOp.update 1 "failed" (some "m") 5]
    (by
      intro op hop
      rw [List.mem_singleton] at hop
      subst hop
      exact Or.inr rfl)).1 c5_state 1
    ⟨1, "alice", "chat1", 10, "10:00", none, 90, "completed", 0, some 1, some "done"⟩
    (by decide) (by decide)

/-- C1: after submit, `make_booking` scans the ordered success-indicator
list first and returns success with the matched element's displayed text
appended; only if no success indicator is visible does it scan the ordered
failure-indicator list; if neither yields a visible match it returns
failure with the verify-manually message; and on no page state does it
report success without a visible success indicator. -/
theorem C1_outcome_detection (w : ScraperWorld) (date : Nat) (ts : String)
    (pref : Option String) (dur : Int)
    (hexn : w.pageExn = none) (hdate : w.dateLinkFound = true)
    (hentry : w.entryCellFound = true) (hclick : w.gridClickOk = true)
    (htime : w.selectOk time_label_id (convert_time_format ts) = true)
    (hsubmit : w.submitFound = true) :
    (∀ el, findFirstVisible w.page success_indicators = some el →
      make_booking w date ts pref dur =
        ⟨true, "Booking confirmed for " ++ toString date ++ " at " ++ ts ++ ": " ++ el.text⟩) ∧
    (findFirstVisible w.page success_indicators = none →
      ∀ el, findFirstVisible w.page error_indicators = some el →
        make_booking w date ts pref dur = ⟨false, "Booking failed: " ++ el.text⟩) ∧
    (findFirstVisible w.page success_indicators = none →
      findFirstVisible w.page error_indicators = none →
      make_booking w date ts pref dur =
        ⟨false, "Could not determine booking status - no clear success or error message found. Please verify manually."⟩) ∧
    (∀ w' : ScraperWorld, (make_booking w' date ts pref dur).success = true →
      (findFirstVisible w'.page success_indicators).isSome = true) := by
  have hmb : make_booking w date ts pref dur = detectOutcome w.page date ts := by
    unfold make_booking make_booking_body
    rw [hexn]
    simp [hdate, hentry, hclick, htime, hsubmit]
  refine ⟨?_, ?_, ?_, ?_⟩
  · intro el hel
    rw [hmb]
    unfold detectOutcome
    rw [hel]
  · intro hnone el hel
    rw [hmb]
    unfold detectOutcome
    rw [hnone, hel]
  · intro h1 h2
    rw [hmb]
    unfold detectOutcome
    rw [h1, h2]
  · intro w' hs
    rcases make_booking_success_shape w' date ts pref dur with heq | hfalse
    · rw [heq] at hs
      exact detectOutcome_success_isSome w'.page date ts hs
    · rw [hs] at hfalse
      exact absurd hfalse (by decide)

def c1_world : ScraperWorld :=
  ⟨none, true, true, true, fun _ _ => true, true, fun _ => none⟩

theorem C1_witness :
    make_booking c1_world 5 "10:00" none 30 =
      ⟨false, "Could not determine booking status - no clear success or error message found. Please verify manually."⟩ :=
  (C1_outcome_detection c1_world 5 "10:00" none 30 rfl rfl rfl rfl rfl rfl).2.2.1 rfl rfl

/-- C7: within the form-population stage, a failed time-dropdown selection
aborts the attempt with a dedicated failure result, whereas the
court-preference and duration dropdown outcomes never influence the result
— the attempt proceeds with whatever the form defaulted to. -/
theorem C7_time_fatal_court_duration_nonfatal (w : ScraperWorld) (date : Nat) (ts : String)
    (pref : Option String) (dur : Int)
    (hexn : w.pageExn = none) (hdate : w.dateLinkFound = true)
    (hentry : w.entryCellFound = true) (hclick : w.gridClickOk = true) :
    (w.selectOk time_label_id (convert_time_format ts) = false →
      make_booking w date ts pref dur =
        ⟨false, "Could not select time " ++ convert_time_format ts ++ " in form dropdown."⟩) ∧
    (∀ w2 : ScraperWorld,
      w2.pageExn = w.pageExn → w2.dateLinkFound = w.dateLinkFound →
      w2.entryCellFound = w.entryCellFound → w2.gridClickOk = w.gridClickOk →
      w2.submitFound = w.submitFound → w2.page = w.page →
      (∀ opt, w2.selectOk time_label_id opt = w.selectOk time_label_id opt) →
      make_booking w2 date ts pref dur = make_booking w date ts pref dur) := by
  constructor
  · intro hsel
    unfold make_booking make_booking_body
    rw [hexn]
    simp [hdate, hentry, hclick, hsel]
  · intro w2 h1 h2 h3 h4 h5 h6 h7
    unfold make_booking make_booking_body
    rw [h1, h2, h3, h4, h5, h6, h7 (convert_time_format ts)]

def c7_world : ScraperWorld :=
  ⟨none, true, true, true, fun _ _ => false, true, fun _ => none⟩

theorem C7_witness :
    make_booking c7_world 5 "14:05" none 30 =
      ⟨false, "Could not select time 02:05 PM in form dropdown."⟩ :=
  ((C7_time_fatal_court_duration_nonfatal c7_world 5 "14:05" none 30
      rfl rfl rfl rfl).1 rfl).trans (by decide)

def c10_world : LoginWorld :=
  ⟨false, Except.error "chromedriver not found", none, true, true,
   "https://portal.example/home"⟩

/-- C10 counterexample: `_setup_driver` runs before `login`'s try block and
re-raises on failure, so a driver-initialization failure propagates out of
`login` instead of being converted to `False`. -/
theorem C10_counterexample :
    login c10_world = Except.error "chromedriver not found" := rfl

/-- C10 (amended): `make_booking` is total — any exception raised during the
attempt is caught and converted to a failure result embedding the exception
text; `login` returns a boolean whenever the driver is already initialized
or driver setup succeeds, converting any exception inside its try block to
`False`; only a driver-initialization failure propagates to the caller. -/
theorem C10_session_boundary (w : LoginWorld) (wb : ScraperWorld) (date : Nat)
    (ts : String) (pref : Option String) (dur : Int) :
    (w.driverSet = true ∨ w.setup = Except.ok () → ∃ b, login w = Except.ok b) ∧
    (w.driverSet = true ∨ w.setup = Except.ok () → w.tryExn.isSome = true →
      login w = Except.ok false) ∧
    (∀ e, make_booking_body wb date ts pref dur = Except.error e →
      make_booking wb date ts pref dur = ⟨false, "Booking error: " ++ e⟩) := by
  refine ⟨?_, ?_, ?_⟩
  · intro h
    unfold login
    rcases h with h | h
    · rw [if_pos h]
      cases htry : login_try w with
      | ok b => exact ⟨b, rfl⟩
      | error e => exact ⟨false, rfl⟩
    · by_cases hd : w.driverSet = true
      · rw [if_pos hd]
        cases htry : login_try w with
        | ok b => exact ⟨b, rfl⟩
        | error e => exact ⟨false, rfl⟩
      · rw [if_neg hd, h]
        cases htry : login_try w with
        | ok b => exact ⟨b, rfl⟩
        | error e => exact ⟨false, rfl⟩
  · intro h hexn
    have htry : ∃ e, login_try w = Except.error e := by
      cases he : w.tryExn with
      | some e =>
        refine ⟨e, ?_⟩
        unfold login_try
        rw [he]
      | none =>
        rw [he] at hexn
        exact absurd hexn (by decide)
    rcases htry with ⟨e, he⟩
    unfold login
    rcases h with h | h
    · rw [if_pos h, he]
    · by_cases hd : w.driverSet = true
      · rw [if_pos hd, he]
      · rw [if_neg hd, h, he]
  · intro e he
    unfold make_booking
    rw [he]

def c10_ok_world : LoginWorld :=
  ⟨true, Except.ok (), none, true, true, "https://portal.example/dashboard"⟩

def c10_scraper : ScraperWorld :=
  ⟨some "net::ERR_CONNECTION_RESET", true, true, true, fun _ _ => true, true, fun _ => none⟩

theorem C10_witness :
    (∃ b, login c10_ok_world = Except.ok b) ∧
    make_booking c10_scraper 5 "10:00" none 30 =
      ⟨false, "Booking error: net::ERR_CONNECTION_RESET"⟩ := by
  constructor
  · exact (C10_session_boundary c10_ok_world c10_scraper 5 "10:00" none 30).1 (Or.inl rfl)
  · exact (C10_session_boundary c10_ok_world c10_scraper 5 "10:00" none 30).2.2
      "net::ERR_CONNECTION_RESET" rfl

/-- C2: in a batch run where login fails, every fetched pending request for
the eligible date is transitioned to `failed` with the same login
diagnostic, a notification is issued for each requester, and `make_booking`
is never invoked. -/
theorem C2_login_failure_run (w : BotWorld) (rows : List Request)
    (hnd : (rows.map (fun r => r.id)).Nodup) (hlog : w.loginOk = false) :
    (∀ req ∈ get_requests_for_date rows (w.today + 2),
      get_request (process_pending_requests w rows).rows req.id =
        some { req with status := "failed", processed_at := some w.now, result_message := some login_fail_msg }) ∧
    (process_pending_requests w rows).attempted = [] ∧
    (process_pending_requests w rows).notifications =
      (get_requests_for_date rows (w.today + 2)).map (fun req =>
        (req.chat_id, "❌ Booking request #" ++ toString req.id ++ " failed: " ++
          login_fail_msg)) := by
  refine ⟨?_, ?_, ?_⟩
  · intro req hreq
    rw [process_get_request w rows hnd req hreq, hlog]
    rfl
  · by_cases hemp : (get_requests_for_date rows (w.today + 2)).isEmpty = true
    · simp [process_pending_requests, hemp]
    · have hb : process_pending_requests w rows =
          (get_requests_for_date rows (w.today + 2)).foldl (loginFailStep w.now)
            ⟨rows, [], []⟩ := by
        simp [process_pending_requests, hemp, hlog]
      rw [hb, foldl_loginFailStep_attempted]
  · by_cases hemp : (get_requests_for_date rows (w.today + 2)).isEmpty = true
    · have hnil : get_requests_for_date rows (w.today + 2) = [] := by
        simpa using hemp
      simp [process_pending_requests, hnil]
    · have hb : process_pending_requests w rows =
          (get_requests_for_date rows (w.today + 2)).foldl (loginFailStep w.now)
            ⟨rows, [], []⟩ := by
        simp [process_pending_requests, hemp, hlog]
      rw [hb, foldl_loginFailStep_notifications]
      rfl

def c2_world : BotWorld := ⟨8, 99, false, fun _ => Except.ok ⟨true, "ok"⟩⟩

def wit_row1 : Request := ⟨1, "alice", "chatA", 10, "08:00", none, 90, "pending", 0, none, none⟩

def wit_row2 : Request :=
  ⟨2, "alice", "chatA", 10, "09:00", some "Court 1", 60, "pending", 1, none, none⟩

def wit_row3 : Request := ⟨3, "bob", "chatB", 10, "10:00", none, 90, "pending", 2, none, none⟩

def wit_row4 : Request := ⟨4, "bob", "chatB", 11, "10:00", none, 90, "pending", 3, none, none⟩

def wit_rows : List Request := [wit_row1, wit_row2, wit_row3, wit_row4]

theorem C2_witness :
    get_request (process_pending_requests c2_world wit_rows).rows 1 =
      some { wit_row1 with status := "failed", processed_at := some 99, result_message := some login_fail_msg } ∧
    (process_pending_requests c2_world wit_rows).attempted = [] := by
  constructor
  · exact (C2_login_failure_run c2_world wit_rows (by decide) rfl).1 wit_row1 (by decide)
  · exact (C2_login_failure_run c2_world wit_rows (by decide) rfl).2.1

/-- C3: in a batch run where login succeeds, every request fetched as
pending for the eligible date ends in a terminal `completed`/`failed`
status with the processed timestamp set; a per-request exception is
converted into `failed` with an `Error:` message for that request only; and
the requests are processed exactly in the fetched order — ordered by
creation time — so a failure on one request does not block the others. -/
theorem C3_login_success_run (w : BotWorld) (rows : List Request)
    (hnd : (rows.map (fun r => r.id)).Nodup) (hlog : w.loginOk = true) :
    (∀ row ∈ rows, pendingFor (w.today + 2) row = true →
      ∃ row', get_request (process_pending_requests w rows).rows row.id = some row' ∧
        (row'.status = "completed" ∨ row'.status = "failed") ∧
        row'.processed_at = some w.now ∧
        (∀ e, w.outcome row = Except.error e →
          row'.status = "failed" ∧ row'.result_message = some ("Error: " ++ e))) ∧
    (process_pending_requests w rows).attempted =
      get_requests_for_date rows (w.today + 2) ∧
    List.Perm (process_pending_requests w rows).attempted
      (rows.filter (pendingFor (w.today + 2))) ∧
    List.Sorted byCreated (process_pending_requests w rows).attempted := by
  have hatt : (process_pending_requests w rows).attempted =
      get_requests_for_date rows (w.today + 2) := by
    by_cases hemp : (get_requests_for_date rows (w.today + 2)).isEmpty = true
    · have hnil : get_requests_for_date rows (w.today + 2) = [] := by
        simpa using hemp
      simp [process_pending_requests, hnil]
    · have hb : process_pending_requests w rows =
          (get_requests_for_date rows (w.today + 2)).foldl (bookStep w.outcome w.now)
            ⟨rows, [], []⟩ := by
        simp [process_pending_requests, hemp, hlog]
      rw [hb, foldl_bookStep_attempted]
      rfl
  refine ⟨?_, hatt, ?_, ?_⟩
  · intro row hrow hp
    have hfetch : row ∈ get_requests_for_date rows (w.today + 2) :=
      (mem_fetched_iff rows (w.today + 2) row).mpr (List.mem_filter.mpr ⟨hrow, hp⟩)
    refine ⟨bookUpd w.outcome w.now row row, ?_, ?_⟩
    · rw [process_get_request w rows hnd row hfetch, hlog]
      rfl
    · unfold bookUpd
      cases ho : w.outcome row with
      | ok res =>
        refine ⟨?_, rfl, ?_⟩
        · by_cases hsucc : res.success = true
          · exact Or.inl (by simp [hsucc])
          · exact Or.inr (by simp [hsucc])
        · intro e he
          exact absurd he (by simp)
      | error e0 =>
        refine ⟨Or.inr rfl, rfl, ?_⟩
        intro e he
        have h0 : e0 = e := by injection he
        rw [← h0]
        exact ⟨rfl, rfl⟩
  · rw [hatt]
    exact fetched_perm rows (w.today + 2)
  · rw [hatt]
    exact List.sorted_insertionSort byCreated (rows.filter (pendingFor (w.today + 2)))

def c3_world : BotWorld :=
  ⟨8, 99, true, fun q =>
    if q.id == 2 then Except.error "SlotUnavailable"
    else Except.ok ⟨true, "Reservation created successfully"⟩⟩

theorem C3_witness :
    (process_pending_requests c3_world wit_rows).attempted =
      [wit_row1, wit_row2, wit_row3] ∧
    List.Sorted byCreated (process_pending_requests c3_world wit_rows).attempted := by
  constructor
  · exact ((C3_login_success_run c3_world wit_rows (by decide) rfl).2.1).trans (by decide)
  · exact (C3_login_success_run c3_world wit_rows (by decide) rfl).2.2.2

/-- C4: a batch run does not touch any request whose date is not the
eligible date (today + the 2-day lead time) or whose status is not
`pending`: that row — status, processed timestamp and result message —
is unchanged afterwards. -/
theorem C4_ineligible_rows_untouched (w : BotWorld) (rows : List Request)
    (hnd : (rows.map (fun r => r.id)).Nodup) (row : Request) (hrow : row ∈ rows)
    (h : row.requested_date ≠ w.today + 2 ∨ row.status ≠ "pending") :
    get_request (process_pending_requests w rows).rows row.id = some row := by
  refine process_get_request_frame w rows hnd row hrow ?_
  rcases h with h | h
  · simp [pendingFor, h]
  · simp [pendingFor, h]

theorem C4_witness :
    get_request (process_pending_requests c3_world wit_rows).rows 4 = some wit_row4 :=
  C4_ineligible_rows_untouched c3_world wit_rows (by decide) wit_row4 (by decide)
    (Or.inl (by decide))
